import Mathlib

/-!
Shallow embedding of `Packs/HelloWorld/Integrations/HelloWorldX2/HelloWorldX2.py`
(an XSOAR HelloWorld integration) and proofs about the behaviours its
specification describes: the incremental alert-fetch checkpoint algorithm,
reputation-score bucketing, severity filtering, argument validation,
connectivity-test error rewriting, domain-date parsing, CVE deduplication and
the fetch page-size clamp.

Python integers are modelled as `Int`; optional / possibly-missing dict values
as `Option`; code that can raise as `Except String`.  External helpers from the
host platform (`timestamp_to_datestring`, `dateparser.parse`, the HTTP client)
are modelled as explicit function parameters, so every theorem quantifies over
their behaviour.
-/

namespace HelloWorldX2

/-- `MAX_ALERTS_TO_FETCH = 50` (module constant, line 259). -/
def MAX_ALERTS_TO_FETCH : Int := 50

/-- `HELLOWORLD_SEVERITIES = ['Low', 'Medium', 'High', 'Critical']` (line 260). -/
def HELLOWORLD_SEVERITIES : List String := ["Low", "Medium", "High", "Critical"]

/-- Python truthiness of an optional integer: `None` and `0` are falsy. -/
def pyTruthyInt : Option Int → Bool
  | none => false
  | some v => v != 0

/-- Python truthiness of an optional string: `None` and `''` are falsy. -/
def pyTruthyStr : Option String → Bool
  | none => false
  | some s => s != ""

/-- `Common.DBotScore.NONE` (unknown) from CommonServerPython. -/
def DBotScoreNONE : Int := 0

/-- `Common.DBotScore.GOOD` (benign) from CommonServerPython. -/
def DBotScoreGOOD : Int := 1

/-- `Common.DBotScore.SUSPICIOUS` from CommonServerPython. -/
def DBotScoreSUSPICIOUS : Int := 2

/-- `Common.DBotScore.BAD` (malicious) from CommonServerPython. -/
def DBotScoreBAD : Int := 3

/-- The score-bucketing performed inside `ip_reputation_command`
(lines 823-832): `reputation = int(ip_data.get('score', 0))`, then
`if reputation == 0: NONE elif reputation >= threshold: BAD
elif reputation >= threshold / 2: SUSPICIOUS else: GOOD`.
Python's `threshold / 2` is true (float) division; it is modelled exactly
as division in `ℚ`. -/
def ip_reputation_score (reputation : Int) (threshold : Int) : Int :=
  if reputation = 0 then DBotScoreNONE
  else if reputation ≥ threshold then DBotScoreBAD
  else if (reputation : ℚ) ≥ (threshold : ℚ) / 2 then DBotScoreSUSPICIOUS
  else DBotScoreGOOD

/-- The score-bucketing performed inside `domain_reputation_command`
(lines 958-966); the code is textually identical to the IP branch. -/
def domain_reputation_score (reputation : Int) (threshold : Int) : Int :=
  if reputation = 0 then DBotScoreNONE
  else if reputation ≥ threshold then DBotScoreBAD
  else if (reputation : ℚ) ≥ (threshold : ℚ) / 2 then DBotScoreSUSPICIOUS
  else DBotScoreGOOD

/-- The `max_results` clamp in `main`'s fetch-alerts path (lines 1420-1426):
`max_results = arg_to_number(params.get('max_fetch'))`;
`if not max_results or max_results > MAX_ALERTS_TO_FETCH:
   max_results = MAX_ALERTS_TO_FETCH`.
The input is the parsed `max_fetch` parameter (`none` = absent). -/
def effective_max_results (max_fetch : Option Int) : Int :=
  if pyTruthyInt max_fetch = false ∨ max_fetch.getD 0 > MAX_ALERTS_TO_FETCH then
    MAX_ALERTS_TO_FETCH
  else
    max_fetch.getD 0

/-- The request `update_alert_status_command` sends to
`/change_alert_status` once validation passes. -/
structure UpdateStatusRequest where
  alert_id : String
  alert_status : String
  deriving Repr, DecidableEq

/-- Validation portion of `update_alert_status_command` (lines 1162-1170):
`alert_id = args.get('alert_id'); if not alert_id: raise ValueError(...)`;
`status = args.get('status'); if status not in ('ACTIVE', 'CLOSED'):
raise ValueError(...)`; then `client.update_alert_status(alert_id, status)`.
The embedding returns the HTTP request the command proceeds to make, or the
validation error; an `Except.error` result means no HTTP call happened. -/
def update_alert_status_command (alert_id status : Option String) :
    Except String UpdateStatusRequest :=
  if !pyTruthyStr alert_id then
    Except.error "alert_id not specified"
  else if status ≠ some "ACTIVE" ∧ status ≠ some "CLOSED" then
    Except.error "status must be either ACTIVE or CLOSED"
  else
    Except.ok ⟨alert_id.getD "", status.getD ""⟩

/-- Whether `pat` occurs at the start of `s` (on character lists, so that
it evaluates by kernel reduction). -/
def startsWithChars : List Char → List Char → Bool
  | _, [] => true
  | [], _ :: _ => false
  | a :: as, b :: bs => (a = b) && startsWithChars as bs

/-- Whether `pat` occurs somewhere inside `s` (on character lists). -/
def containsChars : List Char → List Char → Bool
  | [], pat => pat.isEmpty
  | a :: rest, pat => startsWithChars (a :: rest) pat || containsChars rest pat

/-- Python's `pat in s` on strings: substring containment. -/
def strContains (s pat : String) : Bool :=
  containsChars s.data pat.data

/-- Outcome of the connectivity probe `client.search_alerts(...)` inside
`test_module`: it either succeeds, raises a `DemistoException` carrying a
message, or raises some other exception. -/
inductive ProbeResult where
  | success
  | demistoError (msg : String)
  | otherError (msg : String)
  deriving Repr, DecidableEq

/-- `test_module` (lines 555-563): the probe is attempted; a
`DemistoException` whose text contains `'Forbidden'` is rewritten into the
authorization-error string, any other `DemistoException` is re-raised
(`raise e`), a non-`DemistoException` is not caught at all, and success
returns `'ok'`.  `Except.error p` models the exception `p` propagating. -/
def test_module (probe : ProbeResult) : Except ProbeResult String :=
  match probe with
  | ProbeResult.success => Except.ok "ok"
  | ProbeResult.demistoError m =>
      if strContains m "Forbidden" then
        Except.ok "Authorization Error: make sure API Key is correctly set"
      else
        Except.error (ProbeResult.demistoError m)
  | ProbeResult.otherError m => Except.error (ProbeResult.otherError m)

/-- A raw alert dict as returned by `/get_alerts`.  `created` models
`alert.get('created', '0')` after `int()` (absent key defaults to `0`),
`name` models the mandatory `alert['name']` key (a `KeyError` if absent),
`severity` models `alert.get('severity', 'Low')`. -/
structure RawAlert where
  created : Option Int
  name : Option String
  severity : Option String
  deriving Repr, DecidableEq

/-- The XSOAR alert dict built by `fetch_alerts` for each new alert
(lines 728-740): name, ISO `occurred` string, `rawJSON` dump and the
numeric XSOAR severity. -/
structure OutAlert where
  name : String
  occurred : String
  rawJSON : String
  severity : Int
  deriving Repr, DecidableEq

/-- `convert_to_demisto_severity` (lines 501-523): the dict lookup
`{'Low': AlertSeverity.LOW, ...}[severity]`; `AlertSeverity.LOW/MEDIUM/
HIGH/CRITICAL` are `1/2/3/4` in CommonServerPython.  `none` models the
`KeyError` raised for any other key. -/
def convert_to_demisto_severity (severity : String) : Option Int :=
  if severity = "Low" then some 1
  else if severity = "Medium" then some 2
  else if severity = "High" then some 3
  else if severity = "Critical" then some 4
  else none

/-- The `alert_to_create` dict of the fetch loop (lines 700-740), given the
external `timestamp_to_datestring` (`tsToDate`, applied to the creation time
in milliseconds) and `json.dumps` (`dumps`).  `none` models the `KeyError`
raised when the alert has no `name` or an unmapped `severity`. -/
def alert_to_create (tsToDate : Int → String) (dumps : RawAlert → String)
    (a : RawAlert) : Option OutAlert :=
  match a.name, convert_to_demisto_severity (a.severity.getD "Low") with
  | some n, some sev =>
      some ⟨n, tsToDate (a.created.getD 0 * 1000), dumps a, sev⟩
  | _, _ => none

/-- Line 687: `','.join(HELLOWORLD_SEVERITIES[HELLOWORLD_SEVERITIES.index(min_severity):])`.
`none` models the `ValueError` raised by `.index` when `min_severity` is not
in the list. -/
def fetch_severity_csv (min_severity : String) : Option String :=
  (HELLOWORLD_SEVERITIES.indexOf? min_severity).map fun i =>
    String.intercalate "," (HELLOWORLD_SEVERITIES.drop i)

/-- Lines 668-677: `last_fetch = last_run.get('last_fetch', None)`, falling
back to `first_fetch_time` when absent. -/
def resolve_last_fetch (last_run first_fetch_time : Option Int) : Option Int :=
  match last_run with
  | some v => some v
  | none => first_fetch_time

/-- The `for alert in returned_alerts` loop of `fetch_alerts`
(lines 697-746).  `last_fetch` is the resolved checkpoint (never reassigned
in the loop), the second list argument the remaining batch, and the
`Option Int` the running `latest_created_time`.  The skip condition models
`if last_fetch: if alert_created_time <= last_fetch: continue` with Python
truthiness (`None` and `0` falsy); the `TypeError` arm models Python 3's
`int > None` comparison failure when the checkpoint is `None` and an alert
is processed. -/
def fetchLoop (tsToDate : Int → String) (dumps : RawAlert → String)
    (last_fetch : Option Int) :
    List RawAlert → Option Int → Except String (Option Int × List OutAlert)
  | [], latest => Except.ok (latest, [])
  | a :: rest, latest =>
      if pyTruthyInt last_fetch = true ∧ a.created.getD 0 ≤ last_fetch.getD 0 then
        fetchLoop tsToDate dumps last_fetch rest latest
      else
        match alert_to_create tsToDate dumps a, latest with
        | none, _ => Except.error "KeyError"
        | some _, none => Except.error "TypeError: comparison between int and NoneType"
        | some out, some l =>
            match fetchLoop tsToDate dumps last_fetch rest
                (some (if a.created.getD 0 > l then a.created.getD 0 else l)) with
            | Except.error e => Except.error e
            | Except.ok (fin, outs) => Except.ok (fin, out :: outs)

/-- `fetch_alerts` (lines 616-750).  The HTTP client's `search_alerts` is the
parameter `search`, receiving `(alert_status, alert_type, max_results,
severity, start_time)` exactly as at the call site (lines 689-695); the
returned pair is `({'last_fetch': latest_created_time}, alerts)`. -/
def fetch_alerts (tsToDate : Int → String) (dumps : RawAlert → String)
    (search : Option String → Option String → Int → String → Option Int → List RawAlert)
    (max_results : Int) (last_run : Option Int) (first_fetch_time : Option Int)
    (alert_status : Option String) (min_severity : String) (alert_type : Option String) :
    Except String (Option Int × List OutAlert) :=
  let last_fetch := resolve_last_fetch last_run first_fetch_time
  match fetch_severity_csv min_severity with
  | none => Except.error "ValueError: min_severity is not one of HELLOWORLD_SEVERITIES"
  | some severity =>
      fetchLoop tsToDate dumps last_fetch
        (search alert_status alert_type max_results severity last_fetch) last_fetch

/-- `say_hello_command` (lines 589-613): rejects a missing/empty `name`, and
otherwise returns `client.say_hello(name) = f'Hello {name}'`.  This command
performs no HTTP request at all (`Client.say_hello`, lines 456-466, is pure). -/
def say_hello_command (name : Option String) : Except String String :=
  if !pyTruthyStr name then Except.error "name not specified"
  else Except.ok ("Hello " ++ name.getD "")

/-- The request `search_alerts_command` sends to `/get_alerts` once
validation passes. -/
structure SearchAlertsRequest where
  severity : String
  alert_status : Option String
  alert_type : Option String
  start_time : Option Int
  max_results : Option Int
  deriving Repr, DecidableEq

/-- Helper for `splitOnComma`: accumulates the current field (reversed) and
emits a field at each `','`. -/
def splitCommaAux : List Char → List Char → List String
  | [], acc => [String.mk acc.reverse]
  | c :: rest, acc =>
      if c = ',' then String.mk acc.reverse :: splitCommaAux rest []
      else splitCommaAux rest (c :: acc)

/-- Python's `s.split(',')` (on character lists so that it evaluates by
kernel reduction): `''` yields `['']`, and every `','` separates fields. -/
def splitOnComma (s : String) : List String :=
  splitCommaAux s.data []

/-- `search_alerts_command` (lines 1021-1095), up to the HTTP request: the
severity CSV argument is validated against `HELLOWORLD_SEVERITIES`
(lines 1046-1053) before `client.search_alerts` is invoked with
`severity=','.join(severities)` (lines 1072-1078).  `start_time` and
`max_results` stand for the values already parsed by the host helpers
`arg_to_datetime` / `arg_to_number`.  An `Except.error` result means the
command raised before any HTTP request was made. -/
def search_alerts_command (status severity alert_type : Option String)
    (start_time max_results : Option Int) : Except String SearchAlertsRequest :=
  if pyTruthyStr severity = true then
    let severities := splitOnComma (severity.getD "")
    if severities.all (fun s => HELLOWORLD_SEVERITIES.contains s) then
      Except.ok ⟨String.intercalate "," severities, status, alert_type, start_time, max_results⟩
    else
      Except.error "severity must be a comma-separated value with the following options: Low,Medium,High,Critical"
  else
    Except.ok ⟨String.intercalate "," HELLOWORLD_SEVERITIES, status, alert_type, start_time, max_results⟩

/-- One entity of a `/get_scan_results` payload: `vulns` is `some ids` when
the entity has a `'vulns'` key holding a list (line 1326), else `none`. -/
structure ScanEntity where
  vulns : Option (List String)
  deriving Repr, DecidableEq

/-- A `/get_scan_results` response: its `entities` list and the raw JSON
text used by the `file` branch (`json.dumps(results, indent=4)`). -/
structure ScanResultsPayload where
  entities : List ScanEntity
  raw : String
  deriving Repr, DecidableEq

/-- What `scan_results_command` returns to `main`: a file entry
(`fileResult`) or the json-format entries carrying the scan payload and the
deduplicated CVE indicator ids. -/
inductive ScanResultsOutput where
  | fileEntry (filename : String) (data : String)
  | jsonEntries (payload : ScanResultsPayload) (cveIds : List String)
  deriving Repr, DecidableEq

/-- One iteration of the CVE-id collection loop (lines 1325-1328):
extend the accumulator with the entity's `vulns` ids when present. -/
def cveStep (acc : List String) (e : ScanEntity) : List String :=
  match e.vulns with
  | some vs => acc ++ vs
  | none => acc

/-- The CVE-id collection loop of `scan_results_command` (lines 1322-1328):
`for e in entities: if 'vulns' in e.keys() and isinstance(e['vulns'], list):
cves.extend([...])`. -/
def collectCVEs (entities : List ScanEntity) : List String :=
  entities.foldl cveStep []

/-- Modelled from the spec: `cves = list(set(cves))` (line 1342) builds a set
of `Common.CVE` objects, whose equality and hashing are defined in
CommonServerPython, which is not under `src/`; the spec states that embedded
vulnerability identifiers are deduplicated before being surfaced, so the set
is modelled as deduplication by CVE identifier. -/
def uniqueCVEIds (ids : List String) : List String :=
  ids.dedup

/-- `scan_results_command` (lines 1271-1350).  The first component records
the HTTP requests made (as `/get_scan_results` scan ids), the second the
outcome.  Note the source calls `client.scan_results` (line 1309) before the
`format` argument is examined; `cves = list(set(cves))` (line 1342) is
modelled as deduplication of the CVE identifiers, per the spec, since
`Common.CVE`'s identity is defined in CommonServerPython, outside `src/`. -/
def scan_results_command (client : String → ScanResultsPayload)
    (scan_id fmt : Option String) :
    List String × Except String ScanResultsOutput :=
  if !pyTruthyStr scan_id then
    ([], Except.error "scan_id not specified")
  else
    let sid := scan_id.getD ""
    let scan_format := fmt.getD "file"
    let results := client sid
    let calls := [sid]
    if scan_format = "file" then
      (calls, Except.ok (ScanResultsOutput.fileEntry (sid ++ ".json") results.raw))
    else if scan_format = "json" then
      (calls, Except.ok (ScanResultsOutput.jsonEntries results (uniqueCVEIds (collectCVEs results.entities))))
    else
      (calls, Except.error "Incorrect format, must be \"json\" or \"file\"")

/-- A loosely typed domain WHOIS date value, as `parse_domain_date` receives
it: a string, a list, or anything else. -/
inductive PyVal where
  | str (s : String)
  | list (xs : List PyVal)
  | other

/-- `parse_domain_date` (lines 472-498), parameterised by the external
`dateparser.parse` (`dp`, `none` = unparseable) and by
`datetime.strftime` with the fixed ISO-8601 format (`strftime`): parse a
string, or the first element of a non-empty list when that element is a
string, and return `none` in every other case. -/
def parse_domain_date (dp : String → Option Nat) (strftime : Nat → String) :
    PyVal → Option String
  | PyVal.str s => (dp s).map strftime
  | PyVal.list (PyVal.str s :: _) => (dp s).map strftime
  | _ => none

/-- The three optional WHOIS date fields of a `/domain` response dict. -/
structure DomainWhois where
  creation_date : Option PyVal
  expiration_date : Option PyVal
  updated_date : Option PyVal

/-- The date normalisation in `domain_reputation_command` (lines 946-951
plus the `domain_data.get(..., None)` reads at lines 991-993): a field
present in the response is replaced by `parse_domain_date` of its value, an
absent field stays absent. -/
def normalize_domain_dates (dp : String → Option Nat) (strftime : Nat → String)
    (d : DomainWhois) : Option String × Option String × Option String :=
  (d.creation_date.bind (parse_domain_date dp strftime),
   d.expiration_date.bind (parse_domain_date dp strftime),
   d.updated_date.bind (parse_domain_date dp strftime))

lemma pyTruthyInt_some (v : Int) : pyTruthyInt (some v) = true ↔ v ≠ 0 := by
  simp [pyTruthyInt]

lemma pyTruthyStr_some (s : String) : pyTruthyStr (some s) = true ↔ s ≠ "" := by
  simp [pyTruthyStr]

lemma half_le_iff (r k : Int) : ((r : ℚ) ≥ (k : ℚ) / 2) ↔ 2 * r ≥ k := by
  have h2 : ((2 * r : Int) : ℚ) = (r : ℚ) * 2 := by push_cast; ring
  rw [ge_iff_le, div_le_iff₀ (by norm_num : (0 : ℚ) < 2), ← h2, Int.cast_le]

/-- C3: for every reputation score `r` and threshold `k`, both
`ip_reputation_command` and `domain_reputation_command` bucket identically:
`r = 0` is unknown (`NONE`); a nonzero `r ≥ k` is malicious (`BAD`);
`k/2 ≤ r < k` is suspicious; `0 < r < k/2` is benign (`GOOD`), and the
Python `threshold / 2` comparison is exact: `r ≥ k/2` iff `2r ≥ k`
(so `40 ≥ 32.5` holds for `k = 65`). -/
theorem reputation_score_buckets (r k : Int) :
    ip_reputation_score r k = domain_reputation_score r k ∧
    (r = 0 → ip_reputation_score r k = DBotScoreNONE) ∧
    (r ≠ 0 → r ≥ k → ip_reputation_score r k = DBotScoreBAD) ∧
    (0 ≤ r → 2 * r ≥ k → r < k → ip_reputation_score r k = DBotScoreSUSPICIOUS) ∧
    (0 < r → 2 * r < k → ip_reputation_score r k = DBotScoreGOOD) ∧
    ((r : ℚ) ≥ (k : ℚ) / 2 ↔ 2 * r ≥ k) := by
  have hq := half_le_iff r k
  refine ⟨rfl, ?_, ?_, ?_, ?_, hq⟩
  · intro h
    simp [ip_reputation_score, h]
  · intro h0 hk
    simp only [ip_reputation_score]
    rw [if_neg h0, if_pos hk]
  · intro hr hge hlt
    have h0 : ¬ r = 0 := by omega
    simp only [ip_reputation_score]
    rw [if_neg h0, if_neg (by omega : ¬ r ≥ k), if_pos (hq.mpr hge)]
  · intro hr hlt2
    have h0 : ¬ r = 0 := by omega
    have hnk : ¬ r ≥ k := by omega
    have hns : ¬ ((r : ℚ) ≥ (k : ℚ) / 2) := fun hc => by
      have := hq.mp hc
      omega
    simp only [ip_reputation_score]
    rw [if_neg h0, if_neg hnk, if_neg hns]

/-- Witness for C3 at the spec's examples with threshold 65. -/
theorem reputation_score_buckets_witness :
    ip_reputation_score 70 65 = DBotScoreBAD ∧
    ip_reputation_score 40 65 = DBotScoreSUSPICIOUS ∧
    ip_reputation_score 10 65 = DBotScoreGOOD ∧
    ip_reputation_score 0 65 = DBotScoreNONE :=
  ⟨(reputation_score_buckets 70 65).2.2.1 (by decide) (by decide),
   (reputation_score_buckets 40 65).2.2.2.1 (by decide) (by decide) (by decide),
   (reputation_score_buckets 10 65).2.2.2.2.1 (by decide) (by decide),
   (reputation_score_buckets 0 65).2.1 rfl⟩

/-- C10: the `max_fetch` clamp in `main`'s fetch path never lets the page
size exceed `MAX_ALERTS_TO_FETCH = 50`: an absent, zero, or >50 parameter
yields exactly 50, any other value is used as given. -/
theorem max_fetch_clamp (max_fetch : Option Int) :
    effective_max_results max_fetch ≤ MAX_ALERTS_TO_FETCH ∧
    (max_fetch = none → effective_max_results max_fetch = MAX_ALERTS_TO_FETCH) ∧
    (max_fetch = some 0 → effective_max_results max_fetch = MAX_ALERTS_TO_FETCH) ∧
    (∀ v, max_fetch = some v → v > MAX_ALERTS_TO_FETCH →
      effective_max_results max_fetch = MAX_ALERTS_TO_FETCH) ∧
    (∀ v, max_fetch = some v → v ≠ 0 → v ≤ MAX_ALERTS_TO_FETCH →
      effective_max_results max_fetch = v) := by
  rcases max_fetch with _ | v
  · refine ⟨?_, fun _ => ?_, fun h => ?_, fun v h => ?_, fun v h => ?_⟩ <;>
      simp_all [effective_max_results, pyTruthyInt]
  · refine ⟨?_, fun h => ?_, fun h => ?_, fun w hw hgt => ?_, fun w hw hne hle => ?_⟩
    · simp only [effective_max_results]
      split_ifs with h
      · exact le_refl _
      · push_neg at h
        simpa using h.2
    · exact absurd h (by simp)
    · have hv : v = 0 := by injection h
      simp [effective_max_results, pyTruthyInt, hv]
    · have hv : v = w := by injection hw
      subst hv
      simp only [effective_max_results]
      rw [if_pos (Or.inr (by simpa using hgt))]
    · have hv : v = w := by injection hw
      subst hv
      simp only [effective_max_results]
      rw [if_neg]
      · rfl
      · rintro (hc | hc)
        · rw [(pyTruthyInt_some v).mpr hne] at hc
          exact absurd hc (by decide)
        · simp only [Option.getD_some] at hc
          omega

/-- Witness for C10 at absent, zero, over-limit and in-range inputs. -/
theorem max_fetch_clamp_witness :
    effective_max_results none = MAX_ALERTS_TO_FETCH ∧
    effective_max_results (some 0) = MAX_ALERTS_TO_FETCH ∧
    effective_max_results (some 100) = MAX_ALERTS_TO_FETCH ∧
    effective_max_results (some 7) = 7 :=
  ⟨(max_fetch_clamp none).2.1 rfl,
   (max_fetch_clamp (some 0)).2.2.1 rfl,
   (max_fetch_clamp (some 100)).2.2.2.1 100 rfl (by decide),
   (max_fetch_clamp (some 7)).2.2.2.2 7 rfl (by decide) (by decide)⟩

/-- C5: `update_alert_status_command` raises a `ValueError` for every
`status` other than the literals `ACTIVE`/`CLOSED` (so no HTTP request is
issued), and with a present `alert_id` and a valid `status` it passes
validation and proceeds to the `/change_alert_status` request. -/
theorem update_alert_status_validation (alert_id status : Option String) :
    ((status ≠ some "ACTIVE" ∧ status ≠ some "CLOSED") →
      ∃ msg, update_alert_status_command alert_id status = Except.error msg) ∧
    (pyTruthyStr alert_id = true → (status = some "ACTIVE" ∨ status = some "CLOSED") →
      update_alert_status_command alert_id status =
        Except.ok ⟨alert_id.getD "", status.getD ""⟩ ∧ some (status.getD "") = status) := by
  constructor
  · intro hst
    by_cases ha : pyTruthyStr alert_id = true
    · refine ⟨"status must be either ACTIVE or CLOSED", ?_⟩
      simp only [update_alert_status_command, ha, Bool.not_true]
      rw [if_neg (by simp), if_pos hst]
    · refine ⟨"alert_id not specified", ?_⟩
      simp only [update_alert_status_command]
      rw [if_pos (by simp [Bool.eq_false_iff.mpr ha])]
  · intro ha hst
    have hok : ¬ (status ≠ some "ACTIVE" ∧ status ≠ some "CLOSED") := by
      rcases hst with h | h <;> simp [h]
    constructor
    · simp only [update_alert_status_command, ha, Bool.not_true]
      rw [if_neg (by simp), if_neg hok]
    · rcases hst with h | h <;> simp [h]

/-- Witness for C5: `'open'` is rejected, `'ACTIVE'` proceeds. -/
theorem update_alert_status_validation_witness :
    (∃ msg, update_alert_status_command (some "42") (some "open") = Except.error msg) ∧
    update_alert_status_command (some "42") (some "ACTIVE") = Except.ok ⟨"42", "ACTIVE"⟩ :=
  ⟨(update_alert_status_validation (some "42") (some "open")).1 (by decide),
   ((update_alert_status_validation (some "42") (some "ACTIVE")).2 (by decide) (Or.inl rfl)).1⟩

/-- C7: `test_module` returns the authorization-error string exactly when
the probe raises a `DemistoException` whose text contains `'Forbidden'`;
any other exception propagates unmodified; a successful probe yields `'ok'`. -/
theorem test_module_auth (p : ProbeResult) :
    (p = ProbeResult.success → test_module p = Except.ok "ok") ∧
    (∀ m, p = ProbeResult.demistoError m → strContains m "Forbidden" = true →
      test_module p = Except.ok "Authorization Error: make sure API Key is correctly set") ∧
    (∀ m, p = ProbeResult.demistoError m → strContains m "Forbidden" = false →
      test_module p = Except.error p) ∧
    (∀ m, p = ProbeResult.otherError m → test_module p = Except.error p) ∧
    (test_module p = Except.ok "Authorization Error: make sure API Key is correctly set" ↔
      ∃ m, p = ProbeResult.demistoError m ∧ strContains m "Forbidden" = true) := by
  refine ⟨?_, ?_, ?_, ?_, ?_, ?_⟩
  · rintro rfl
    rfl
  · rintro m rfl hf
    simp [test_module, hf]
  · rintro m rfl hf
    simp [test_module, hf]
  · rintro m rfl
    rfl
  · intro h
    cases p with
    | success => simp [test_module] at h
    | demistoError m =>
        refine ⟨m, rfl, ?_⟩
        by_cases hf : strContains m "Forbidden" = true
        · exact hf
        · rw [Bool.not_eq_true] at hf
          simp [test_module, hf] at h
    | otherError m => simp [test_module] at h
  · rintro ⟨m, rfl, hf⟩
    simp [test_module, hf]

/-- Witness for C7: a `Forbidden` `DemistoException` is rewritten, a plain
server error propagates, a successful probe returns `'ok'`. -/
theorem test_module_auth_witness :
    test_module (ProbeResult.demistoError "Error in API call [403] - Forbidden") =
      Except.ok "Authorization Error: make sure API Key is correctly set" ∧
    test_module (ProbeResult.demistoError "Error in API call [500] - Server Error") =
      Except.error (ProbeResult.demistoError "Error in API call [500] - Server Error") ∧
    test_module ProbeResult.success = Except.ok "ok" :=
  ⟨(test_module_auth (ProbeResult.demistoError "Error in API call [403] - Forbidden")).2.1
      _ rfl (by decide),
   (test_module_auth (ProbeResult.demistoError "Error in API call [500] - Server Error")).2.2.1
      _ rfl (by decide),
   (test_module_auth ProbeResult.success).1 rfl⟩

/-- C4: `fetch_alerts` builds the severity filter inclusive-upward: for each
`min_severity` in `HELLOWORLD_SEVERITIES` the requested CSV is exactly the
comma-join of the suffix of `['Low','Medium','High','Critical']` starting at
`min_severity`; in particular `'Medium'` yields `'Medium,High,Critical'`,
which does not mention `Low`. -/
theorem fetch_severity_filter_upward :
    (∀ m ∈ HELLOWORLD_SEVERITIES, ∃ i,
      HELLOWORLD_SEVERITIES.indexOf? m = some i ∧
      (HELLOWORLD_SEVERITIES.drop i).head? = some m ∧
      fetch_severity_csv m = some (String.intercalate "," (HELLOWORLD_SEVERITIES.drop i))) ∧
    fetch_severity_csv "Low" = some "Low,Medium,High,Critical" ∧
    fetch_severity_csv "Medium" = some "Medium,High,Critical" ∧
    fetch_severity_csv "High" = some "High,Critical" ∧
    fetch_severity_csv "Critical" = some "Critical" ∧
    strContains "Medium,High,Critical" "Low" = false := by
  refine ⟨?_, rfl, rfl, rfl, rfl, by decide⟩
  intro m hm
  fin_cases hm
  · exact ⟨0, rfl, rfl, rfl⟩
  · exact ⟨1, rfl, rfl, rfl⟩
  · exact ⟨2, rfl, rfl, rfl⟩
  · exact ⟨3, rfl, rfl, rfl⟩

/-- Witness for C4 at `min_severity = 'Medium'`. -/
theorem fetch_severity_filter_upward_witness :
    ∃ i, HELLOWORLD_SEVERITIES.indexOf? "Medium" = some i ∧
      (HELLOWORLD_SEVERITIES.drop i).head? = some "Medium" ∧
      fetch_severity_csv "Medium" =
        some (String.intercalate "," (HELLOWORLD_SEVERITIES.drop i)) :=
  fetch_severity_filter_upward.1 "Medium" (by decide)

/-- The running-maximum update of the fetch loop (lines 744-746):
`if alert_created_time > latest_created_time: latest_created_time = alert_created_time`. -/
def maxStep (m : Int) (a : RawAlert) : Int :=
  max m (a.created.getD 0)

lemma le_foldl_maxStep : ∀ (batch : List RawAlert) (l : Int), l ≤ batch.foldl maxStep l := by
  intro batch
  induction batch with
  | nil => intro l; exact le_refl l
  | cons a rest ih =>
      intro l
      rw [List.foldl_cons]
      exact le_trans (le_max_left _ _) (ih _)

lemma foldl_maxStep_mem_le : ∀ (batch : List RawAlert) (l : Int) (a : RawAlert),
    a ∈ batch → a.created.getD 0 ≤ batch.foldl maxStep l := by
  intro batch
  induction batch with
  | nil => intro l a ha; cases ha
  | cons b rest ih =>
      intro l a ha
      rw [List.foldl_cons]
      rcases List.mem_cons.mp ha with h | h
      · subst h
        exact le_trans (le_max_right _ _) (le_foldl_maxStep rest _)
      · exact ih _ a h

lemma foldl_maxStep_cases : ∀ (batch : List RawAlert) (l : Int),
    batch.foldl maxStep l = l ∨
      ∃ a ∈ batch, a.created.getD 0 = batch.foldl maxStep l := by
  intro batch
  induction batch with
  | nil => intro l; exact Or.inl rfl
  | cons b rest ih =>
      intro l
      rw [List.foldl_cons]
      rcases ih (maxStep l b) with h | ⟨a, ha, he⟩
      · rcases max_choice l (b.created.getD 0) with hm | hm
        · left
          rw [h]
          exact hm
        · right
          refine ⟨b, List.mem_cons_self b rest, ?_⟩
          rw [h]
          exact hm.symm
      · exact Or.inr ⟨a, List.mem_cons_of_mem _ ha, he⟩

lemma fetchLoop_ok_latest (tsToDate : Int → String) (dumps : RawAlert → String) (T : Int) :
    ∀ (batch : List RawAlert) (l : Int), T ≤ l →
      ∀ (fin : Option Int) (outs : List OutAlert),
        fetchLoop tsToDate dumps (some T) batch (some l) = Except.ok (fin, outs) →
        fin = some (batch.foldl maxStep l) := by
  intro batch
  induction batch with
  | nil =>
      intro l hl fin outs h
      simp only [fetchLoop] at h
      cases h
      rfl
  | cons a rest ih =>
      intro l hl fin outs h
      rw [List.foldl_cons]
      simp only [fetchLoop] at h
      split at h
      · rename_i hc
        obtain ⟨ht, hle⟩ := hc
        have hcl : a.created.getD 0 ≤ l := le_trans (by simpa using hle) hl
        have hrec := ih l hl fin outs h
        rw [hrec, show maxStep l a = l from max_eq_left hcl]
      · rename_i hc
        split at h
        · cases h
        · cases h
        · rename_i out' lv heqa heql
          injection heql with hlv
          subst hlv
          split at h
          · cases h
          · rename_i fin2 outs2 heq2
            cases h
            have hstep : (if a.created.getD 0 > l then a.created.getD 0 else l) = maxStep l a := by
              by_cases hgt : a.created.getD 0 > l
              · rw [if_pos hgt]
                exact (max_eq_right (le_of_lt hgt)).symm
              · rw [if_neg hgt]
                exact (max_eq_left (not_lt.mp hgt)).symm
            rw [hstep] at heq2
            exact ih (maxStep l a) (le_trans hl (le_max_left _ _)) _ _ heq2

lemma fetchLoop_ok_mem (tsToDate : Int → String) (dumps : RawAlert → String) (T : Int)
    (hT : T ≠ 0) :
    ∀ (batch : List RawAlert) (l : Int) (fin : Option Int) (outs : List OutAlert),
      fetchLoop tsToDate dumps (some T) batch (some l) = Except.ok (fin, outs) →
      ∀ out ∈ outs, ∃ a ∈ batch, a.created.getD 0 > T ∧
        alert_to_create tsToDate dumps a = some out := by
  intro batch
  induction batch with
  | nil =>
      intro l fin outs h out hout
      simp only [fetchLoop] at h
      cases h
      cases hout
  | cons a rest ih =>
      intro l fin outs h out hout
      simp only [fetchLoop] at h
      split at h
      · obtain ⟨b, hb, hgt, he⟩ := ih l fin outs h out hout
        exact ⟨b, List.mem_cons_of_mem _ hb, hgt, he⟩
      · rename_i hc
        have hgta : a.created.getD 0 > T := by
          rcases not_and_or.mp hc with h1 | h2
          · exact absurd ((pyTruthyInt_some T).mpr hT) h1
          · simp only [Option.getD_some] at h2
            exact not_le.mp h2
        split at h
        · cases h
        · cases h
        · rename_i out' lv heqa heql
          injection heql with hlv
          subst hlv
          split at h
          · cases h
          · rename_i fin2 outs2 heq2
            cases h
            rcases List.mem_cons.mp hout with hh | hh
            · subst hh
              exact ⟨a, List.mem_cons_self a rest, hgta, heqa⟩
            · obtain ⟨b, hb, hbgt, hbe⟩ := ih _ _ _ heq2 out hh
              exact ⟨b, List.mem_cons_of_mem _ hb, hbgt, hbe⟩

/-- C1: for an integer checkpoint `T` (from `last_run['last_fetch']`, or
`first_fetch_time` on the first cycle) and any batch returned by the search,
`fetch_alerts` returns `next_run['last_fetch'] = max(T, max creation time
observed in the batch)`: it is `≥ T`, an upper bound of all observed
creation times, and either `T` itself or a creation time from the batch. -/
theorem fetch_alerts_checkpoint
    (tsToDate : Int → String) (dumps : RawAlert → String)
    (search : Option String → Option String → Int → String → Option Int → List RawAlert)
    (max_results : Int) (last_run first_fetch_time : Option Int)
    (alert_status : Option String) (min_severity : String) (alert_type : Option String)
    (T : Int) (csv : String) (next : Option Int) (outs : List OutAlert)
    (hT : resolve_last_fetch last_run first_fetch_time = some T)
    (hcsv : fetch_severity_csv min_severity = some csv)
    (h : fetch_alerts tsToDate dumps search max_results last_run first_fetch_time
        alert_status min_severity alert_type = Except.ok (next, outs)) :
    next = some ((search alert_status alert_type max_results csv (some T)).foldl maxStep T) ∧
    ∃ M, next = some M ∧ T ≤ M ∧
      (∀ a ∈ search alert_status alert_type max_results csv (some T),
        a.created.getD 0 ≤ M) ∧
      (M = T ∨ ∃ a ∈ search alert_status alert_type max_results csv (some T),
        a.created.getD 0 = M) := by
  simp only [fetch_alerts, hT, hcsv] at h
  have hfin := fetchLoop_ok_latest tsToDate dumps T _ T (le_refl T) next outs h
  refine ⟨hfin, (search alert_status alert_type max_results csv (some T)).foldl maxStep T,
    hfin, le_foldl_maxStep _ T, fun a ha => foldl_maxStep_mem_le _ T a ha, ?_⟩
  exact foldl_maxStep_cases _ T

/-- Witness for C1 at the spec's example: checkpoint 1000, batch with
creation times 1000, 1001, 1002; the new checkpoint is 1002. -/
theorem fetch_alerts_checkpoint_witness :
    (some 1002 : Option Int) =
      some (List.foldl maxStep 1000
        ([⟨some 1000, some "a", none⟩, ⟨some 1001, some "b", none⟩,
          ⟨some 1002, some "c", none⟩] : List RawAlert)) ∧
    ∃ M, (some 1002 : Option Int) = some M ∧ (1000 : Int) ≤ M ∧
      (∀ a ∈ ([⟨some 1000, some "a", none⟩, ⟨some 1001, some "b", none⟩,
          ⟨some 1002, some "c", none⟩] : List RawAlert), a.created.getD 0 ≤ M) ∧
      (M = 1000 ∨ ∃ a ∈ ([⟨some 1000, some "a", none⟩, ⟨some 1001, some "b", none⟩,
          ⟨some 1002, some "c", none⟩] : List RawAlert), a.created.getD 0 = M) :=
  fetch_alerts_checkpoint (fun _ => "ts") (fun _ => "d")
    (fun _ _ _ _ _ => [⟨some 1000, some "a", none⟩, ⟨some 1001, some "b", none⟩,
      ⟨some 1002, some "c", none⟩])
    50 (some 1000) none none "Low" none
    1000 "Low,Medium,High,Critical" (some 1002)
    [⟨"b", "ts", "d", 1⟩, ⟨"c", "ts", "d", 1⟩]
    rfl rfl rfl

/-- C2 exactly as claimed: for EVERY checkpoint `T`, every returned alert
stems from a batch alert with creation time strictly greater than `T`. -/
def dedupClaimAllCheckpoints : Prop :=
  ∀ (tsToDate : Int → String) (dumps : RawAlert → String)
    (search : Option String → Option String → Int → String → Option Int → List RawAlert)
    (max_results : Int) (last_run first_fetch_time : Option Int)
    (alert_status : Option String) (min_severity : String) (alert_type : Option String)
    (T : Int) (csv : String) (next : Option Int) (outs : List OutAlert),
    resolve_last_fetch last_run first_fetch_time = some T →
    fetch_severity_csv min_severity = some csv →
    fetch_alerts tsToDate dumps search max_results last_run first_fetch_time
      alert_status min_severity alert_type = Except.ok (next, outs) →
    ∀ out ∈ outs, ∃ a ∈ search alert_status alert_type max_results csv (some T),
      a.created.getD 0 > T ∧ alert_to_create tsToDate dumps a = some out

/-- Counterexample to C2 as stated: at checkpoint `T = 0` (falsy in Python,
so `if last_fetch:` skips the dedup filter) an alert with creation time
`0 = T` is returned rather than excluded. -/
theorem fetch_alerts_dedup_cex : ¬ dedupClaimAllCheckpoints := by
  intro hclaim
  have h := hclaim (fun _ => "ts") (fun _ => "d")
    (fun _ _ _ _ _ => [⟨some 0, some "a", none⟩]) 50 (some 0) none none "Low" none
    0 "Low,Medium,High,Critical" (some 0) [⟨"a", "ts", "d", 1⟩]
    rfl rfl rfl ⟨"a", "ts", "d", 1⟩ (List.mem_singleton_self _)
  obtain ⟨a, ha, hgt, _⟩ := h
  rw [List.mem_singleton] at ha
  subst ha
  simp at hgt

/-- C2 amended: for every NONZERO integer checkpoint `T`, each returned
alert stems from a batch alert with creation time strictly greater than `T`
(alerts with creation time `≤ T`, equality included, are excluded). -/
theorem fetch_alerts_dedup_nonzero
    (tsToDate : Int → String) (dumps : RawAlert → String)
    (search : Option String → Option String → Int → String → Option Int → List RawAlert)
    (max_results : Int) (last_run first_fetch_time : Option Int)
    (alert_status : Option String) (min_severity : String) (alert_type : Option String)
    (T : Int) (csv : String) (next : Option Int) (outs : List OutAlert)
    (hT : resolve_last_fetch last_run first_fetch_time = some T)
    (hT0 : T ≠ 0)
    (hcsv : fetch_severity_csv min_severity = some csv)
    (h : fetch_alerts tsToDate dumps search max_results last_run first_fetch_time
        alert_status min_severity alert_type = Except.ok (next, outs)) :
    ∀ out ∈ outs, ∃ a ∈ search alert_status alert_type max_results csv (some T),
      a.created.getD 0 > T ∧ alert_to_create tsToDate dumps a = some out := by
  simp only [fetch_alerts, hT, hcsv] at h
  exact fetchLoop_ok_mem tsToDate dumps T hT0 _ T next outs h

/-- Witness for amended C2 at checkpoint 1000 with creation times
1000, 1001, 1002: both returned alerts stem from creation times above 1000. -/
theorem fetch_alerts_dedup_nonzero_witness :
    ∃ a ∈ ([⟨some 1000, some "a", none⟩, ⟨some 1001, some "b", none⟩,
        ⟨some 1002, some "c", none⟩] : List RawAlert),
      a.created.getD 0 > 1000 ∧
      alert_to_create (fun _ => "ts") (fun _ => "d") a = some ⟨"b", "ts", "d", 1⟩ :=
  fetch_alerts_dedup_nonzero (fun _ => "ts") (fun _ => "d")
    (fun _ _ _ _ _ => [⟨some 1000, some "a", none⟩, ⟨some 1001, some "b", none⟩,
      ⟨some 1002, some "c", none⟩])
    50 (some 1000) none none "Low" none
    1000 "Low,Medium,High,Critical" (some 1002)
    [⟨"b", "ts", "d", 1⟩, ⟨"c", "ts", "d", 1⟩]
    rfl (by decide) rfl rfl ⟨"b", "ts", "d", 1⟩ (by decide)

lemma mem_cveStep_foldl : ∀ (entities : List ScanEntity) (acc : List String) (c : String),
    c ∈ entities.foldl cveStep acc ↔
      c ∈ acc ∨ ∃ e ∈ entities, ∃ vs, e.vulns = some vs ∧ c ∈ vs := by
  intro entities
  induction entities with
  | nil => intro acc c; simp
  | cons e rest ih =>
      intro acc c
      rw [List.foldl_cons, ih]
      rcases he : e.vulns with _ | vs
      · rw [show cveStep acc e = acc from by simp [cveStep, he]]
        constructor
        · rintro (hc | ⟨e', he', vs, hvs, hcv⟩)
          · exact Or.inl hc
          · exact Or.inr ⟨e', List.mem_cons_of_mem _ he', vs, hvs, hcv⟩
        · rintro (hc | ⟨e', he', vs, hvs, hcv⟩)
          · exact Or.inl hc
          · rcases List.mem_cons.mp he' with hh | hh
            · subst hh
              rw [he] at hvs
              cases hvs
            · exact Or.inr ⟨e', hh, vs, hvs, hcv⟩
      · rw [show cveStep acc e = acc ++ vs from by simp [cveStep, he]]
        constructor
        · rintro (hc | ⟨e', he', vs', hvs', hcv⟩)
          · rcases List.mem_append.mp hc with hc | hc
            · exact Or.inl hc
            · exact Or.inr ⟨e, List.mem_cons_self e rest, vs, he, hc⟩
          · exact Or.inr ⟨e', List.mem_cons_of_mem _ he', vs', hvs', hcv⟩
        · rintro (hc | ⟨e', he', vs', hvs', hcv⟩)
          · exact Or.inl (List.mem_append.mpr (Or.inl hc))
          · rcases List.mem_cons.mp he' with hh | hh
            · subst hh
              rw [he] at hvs'
              injection hvs' with hv
              subst hv
              exact Or.inl (List.mem_append.mpr (Or.inr hcv))
            · exact Or.inr ⟨e', hh, vs', hvs', hcv⟩

lemma mem_collectCVEs (entities : List ScanEntity) (c : String) :
    c ∈ collectCVEs entities ↔ ∃ e ∈ entities, ∃ vs, e.vulns = some vs ∧ c ∈ vs := by
  rw [collectCVEs, mem_cveStep_foldl]
  simp

/-- C9: in `scan_results_command` with format `json`, the surfaced CVE
indicator ids are deduplicated: the returned id list has no duplicates, and
it contains exactly the ids occurring in some entity's `vulns` list. -/
theorem scan_results_cve_dedup
    (client : String → ScanResultsPayload) (scan_id fmt : Option String)
    (calls : List String) (p : ScanResultsPayload) (cveIds : List String)
    (h : scan_results_command client scan_id fmt =
      (calls, Except.ok (ScanResultsOutput.jsonEntries p cveIds))) :
    cveIds.Nodup ∧
    (∀ c, c ∈ cveIds ↔ ∃ e ∈ p.entities, ∃ vs, e.vulns = some vs ∧ c ∈ vs) := by
  simp only [scan_results_command] at h
  split at h
  · injection h with h1 h2
    exact Except.noConfusion h2
  · split at h
    · injection h with h1 h2
      injection h2 with h3
      exact ScanResultsOutput.noConfusion h3
    · split at h
      · injection h with h1 h2
        injection h2 with h3
        injection h3 with h4 h5
        subst h4
        constructor
        · rw [← h5, uniqueCVEIds]
          exact List.nodup_dedup _
        · intro c
          rw [← h5, uniqueCVEIds, List.mem_dedup, mem_collectCVEs]
      · injection h with h1 h2
        exact Except.noConfusion h2

/-- Witness for C9: two entities sharing `CVE-1` yield each id exactly once. -/
theorem scan_results_cve_dedup_witness :
    (["CVE-2", "CVE-1"] : List String).Nodup ∧
    (∀ c, c ∈ (["CVE-2", "CVE-1"] : List String) ↔
      ∃ e ∈ ([⟨some ["CVE-1", "CVE-2"]⟩, ⟨some ["CVE-1"]⟩] : List ScanEntity),
        ∃ vs, e.vulns = some vs ∧ c ∈ vs) :=
  scan_results_cve_dedup
    (fun _ => ⟨[⟨some ["CVE-1", "CVE-2"]⟩, ⟨some ["CVE-1"]⟩], "raw"⟩)
    (some "1") (some "json") ["1"]
    ⟨[⟨some ["CVE-1", "CVE-2"]⟩, ⟨some ["CVE-1"]⟩], "raw"⟩
    ["CVE-2", "CVE-1"] rfl

/-- C6 exactly as claimed for `scan_results_command`: every rejection would
have to happen with no preceding network call (the call-trace component
empty). -/
def scanResultsRejectsWithoutNetworkCall : Prop :=
  ∀ (client : String → ScanResultsPayload) (scan_id fmt : Option String)
    (calls : List String) (msg : String),
    scan_results_command client scan_id fmt = (calls, Except.error msg) → calls = []

/-- Counterexample to C6 as stated: with `scan_id = '1'` and the malformed
`format = 'xml'`, `scan_results_command` performs the `/get_scan_results`
HTTP call first and only then raises the format `ValueError`. -/
theorem scan_results_rejection_cex : ¬ scanResultsRejectsWithoutNetworkCall := by
  intro hclaim
  have h := hclaim (fun _ => ⟨[], ""⟩) (some "1") (some "xml") ["1"]
    "Incorrect format, must be \"json\" or \"file\"" rfl
  cases h

/-- C6 amended: missing required arguments and malformed enum values are
rejected with descriptive errors; for `say_hello_command` (which performs no
HTTP request at all), `search_alerts_command`'s malformed severity, and
`scan_results_command`'s missing `scan_id`, no network call precedes the
rejection — but `scan_results_command`'s malformed `format` is rejected only
after the `/get_scan_results` network call has been made. -/
theorem invalid_input_rejection
    (name status severity alert_type : Option String)
    (start_time max_results : Option Int)
    (client : String → ScanResultsPayload) (scan_id fmt : Option String) :
    (pyTruthyStr name = false → say_hello_command name = Except.error "name not specified") ∧
    (∀ s, severity = some s → s ≠ "" →
      (splitOnComma s).all (fun x => HELLOWORLD_SEVERITIES.contains x) = false →
      ∃ msg, search_alerts_command status severity alert_type start_time max_results =
        Except.error msg) ∧
    (pyTruthyStr scan_id = false →
      scan_results_command client scan_id fmt = ([], Except.error "scan_id not specified")) ∧
    (∀ sid, scan_id = some sid → sid ≠ "" →
      fmt.getD "file" ≠ "file" → fmt.getD "file" ≠ "json" →
      scan_results_command client scan_id fmt =
        ([sid], Except.error "Incorrect format, must be \"json\" or \"file\"")) := by
  refine ⟨?_, ?_, ?_, ?_⟩
  · intro hn
    simp [say_hello_command, hn]
  · rintro s rfl hne hall
    have hs : pyTruthyStr (some s) = true := (pyTruthyStr_some s).mpr hne
    refine ⟨"severity must be a comma-separated value with the following options: Low,Medium,High,Critical", ?_⟩
    simp only [search_alerts_command, hs, Option.getD_some]
    rw [if_pos trivial, hall, if_neg (by decide : ¬ (false = true))]
  · intro hsid
    simp [scan_results_command, hsid]
  · rintro sid rfl hne hf hj
    have hs : pyTruthyStr (some sid) = true := (pyTruthyStr_some sid).mpr hne
    simp only [scan_results_command, hs, Bool.not_true, Option.getD_some]
    rw [if_neg (by decide : ¬ (false = true)), if_neg hf, if_neg hj]

/-- Witness for amended C6 at concrete invalid inputs. -/
theorem invalid_input_rejection_witness :
    say_hello_command none = Except.error "name not specified" ∧
    (∃ msg, search_alerts_command none (some "Bogus") none none none = Except.error msg) ∧
    scan_results_command (fun _ => ⟨[], ""⟩) none none =
      ([], Except.error "scan_id not specified") ∧
    scan_results_command (fun _ => ⟨[], ""⟩) (some "1") (some "xml") =
      (["1"], Except.error "Incorrect format, must be \"json\" or \"file\"") := by
  refine ⟨?_, ?_, ?_, ?_⟩
  · exact (invalid_input_rejection none none none none none none
      (fun _ => ⟨[], ""⟩) none none).1 rfl
  · exact (invalid_input_rejection none none (some "Bogus") none none none
      (fun _ => ⟨[], ""⟩) none none).2.1 "Bogus" rfl (by decide) (by decide)
  · exact (invalid_input_rejection none none none none none none
      (fun _ => ⟨[], ""⟩) none none).2.2.1 rfl
  · exact (invalid_input_rejection none none none none none none
      (fun _ => ⟨[], ""⟩) (some "1") (some "xml")).2.2.2 "1" rfl
      (by decide) (by decide) (by decide)

/-- C8: `parse_domain_date` is total (never raises): for every input shape
it returns either `none` or a date formatted by `strftime` with the fixed
ISO-8601 format; a string input is parsed directly, a non-empty list whose
first element is a string is parsed through that first element, and every
other shape (empty list, list with a non-string head, any other value)
yields `none`; correspondingly `domain_reputation_command` turns an
unparseable creation date into an absent field rather than an error. -/
theorem parse_domain_date_shape
    (dp : String → Option Nat) (strftime : Nat → String) (v : PyVal) :
    (parse_domain_date dp strftime v = none ∨
      ∃ d, parse_domain_date dp strftime v = some (strftime d)) ∧
    (∀ s, v = PyVal.str s → parse_domain_date dp strftime v = (dp s).map strftime) ∧
    (∀ s rest, v = PyVal.list (PyVal.str s :: rest) →
      parse_domain_date dp strftime v = (dp s).map strftime) ∧
    (v = PyVal.list [] → parse_domain_date dp strftime v = none) ∧
    (∀ xs rest, v = PyVal.list (PyVal.list xs :: rest) →
      parse_domain_date dp strftime v = none) ∧
    (v = PyVal.other → parse_domain_date dp strftime v = none) ∧
    (∀ w : DomainWhois, ∀ s, w.creation_date = some (PyVal.str s) → dp s = none →
      (normalize_domain_dates dp strftime w).1 = none) := by
  refine ⟨?_, ?_, ?_, ?_, ?_, ?_, ?_⟩
  · cases v with
    | str s =>
        rcases hd : dp s with _ | d
        · exact Or.inl (by simp [parse_domain_date, hd])
        · exact Or.inr ⟨d, by simp [parse_domain_date, hd]⟩
    | list xs =>
        cases xs with
        | nil => exact Or.inl rfl
        | cons x rest =>
            cases x with
            | str s =>
                rcases hd : dp s with _ | d
                · exact Or.inl (by simp [parse_domain_date, hd])
                · exact Or.inr ⟨d, by simp [parse_domain_date, hd]⟩
            | list ys => exact Or.inl rfl
            | other => exact Or.inl rfl
    | other => exact Or.inl rfl
  · rintro s rfl
    rfl
  · rintro s rest rfl
    rfl
  · rintro rfl
    rfl
  · rintro xs rest rfl
    rfl
  · rintro rfl
    rfl
  · rintro w s hw hd
    simp [normalize_domain_dates, hw, parse_domain_date, hd]

/-- Witness for C8: an unparseable string yields `none`, a list is parsed
through its first element, a non-string non-list value yields `none`. -/
theorem parse_domain_date_shape_witness :
    parse_domain_date (fun _ => none) (fun _ => "iso") (PyVal.str "not a date") = none ∧
    parse_domain_date (fun _ => some 7) (fun _ => "iso")
      (PyVal.list [PyVal.str "2020-01-01", PyVal.str "y"]) = some "iso" ∧
    parse_domain_date (fun _ => some 7) (fun _ => "iso") PyVal.other = none := by
  refine ⟨?_, ?_, ?_⟩
  · have h := (parse_domain_date_shape (fun _ => none) (fun _ => "iso")
      (PyVal.str "not a date")).2.1 "not a date" rfl
    simpa using h
  · have h := (parse_domain_date_shape (fun _ => some 7) (fun _ => "iso")
      (PyVal.list [PyVal.str "2020-01-01", PyVal.str "y"])).2.2.1
      "2020-01-01" [PyVal.str "y"] rfl
    simpa using h
  · exact (parse_domain_date_shape (fun _ => some 7) (fun _ => "iso")
      PyVal.other).2.2.2.2.2.1 rfl

end HelloWorldX2
